import Mathlib

/-!
# Verification of the `rift` Postgres helper library

A shallow embedding of `src/lib/index.ts` (and `src/lib/types.ts`) of the
`@warsam-e/rift` package: a thin convenience layer over a Postgres driver
that builds parameterized SQL for insert / update / delete and normalizes
driver errors into a single `RiftError` kind.

Modelling conventions:
* JavaScript values bound as SQL parameters are the inductive `Value`
  (integers, strings, `null`, `undefined`).
* A JavaScript object is an association list `Row := List (String × Value)`
  in insertion order, so `Object.keys` is `List.map Prod.fst` and
  `Object.values` is `List.map Prod.snd`.
* The driver connection (`pg.PoolClient.query`) is a function
  `Driver : String → List Value → Except JsThrown (List Row)`; the helpers
  additionally return the list of driver calls they perform (a writer-style
  trace), so "never touches the connection" and "never retries" are
  statements about that trace.
* `Array.prototype.join(sep)` is `joinSep sep`, and the indexed
  `Array.prototype.map((x, i) => …)` is `mapWithIndex`.
-/

namespace Rift

/-- A JavaScript value usable as a SQL parameter. -/
inductive Value : Type
  | int (n : Int)
  | str (s : String)
  | null
  | undef
deriving DecidableEq, Repr

/-- A JavaScript object in key-insertion order: the model of a row /
`RiftObjectAny` (`Record<string, any>`). -/
def Row : Type := List (String × Value)

instance : DecidableEq Row := by unfold Row; infer_instance

/-- Model of `row[key]`: property access on a JS object; a missing key
yields `undefined`. -/
def rowGet (row : Row) (key : String) : Value :=
  match (List.lookup key (row : List (String × Value))) with
  | some v => v
  | none => Value.undef

/-- Model of `Array.prototype.join(sep)`. -/
def joinSep (sep : String) : List String → String
  | [] => ""
  | [x] => x
  | x :: y :: xs => x ++ sep ++ joinSep sep (y :: xs)

/-- Model of `Array.prototype.map((x, i) => f x i)` with the index starting
at the given value. -/
def mapIdxFrom (f : α → Nat → β) : Nat → List α → List β
  | _, [] => []
  | i, x :: xs => f x i :: mapIdxFrom f (i + 1) xs

/-- Model of `Array.prototype.map((x, i) => f x i)`. -/
def mapWithIndex (f : α → Nat → β) (l : List α) : List β :=
  mapIdxFrom f 0 l

/-- Escape one character as inside a JSON string literal
(`JSON.stringify`). -/
def jsonEscapeChar (c : Char) : String :=
  if c = '"' then "\\\""
  else if c = '\\' then "\\\\"
  else if c = '\n' then "\\n"
  else if c = '\r' then "\\r"
  else if c = '\t' then "\\t"
  else String.singleton c

/-- The body of a JSON string literal. -/
def jsonEscape (s : String) : String :=
  String.join (s.toList.map jsonEscapeChar)

/-- Model of `JSON.stringify` on a single value (inside an array, where JS
renders `undefined` as `null`). -/
def jsonStringifyValue : Value → String
  | .int n => toString n
  | .str s => "\"" ++ jsonEscape s ++ "\""
  | .null => "null"
  | .undef => "null"

/-- Model of `JSON.stringify(values)` for a parameter array. -/
def jsonStringify (vs : List Value) : String :=
  "[" ++ joinSep "," (vs.map jsonStringifyValue) ++ "]"

/-- A `pg.DatabaseError`: a structured error from the database, carrying
optional code / detail / hint / position fields. -/
structure DatabaseError where
  message : String
  code : Option String
  detail : Option String
  hint : Option String
  position : Option String
deriving DecidableEq, Repr

/-- What the driver may throw: a structured `pg.DatabaseError`, another
`Error` object (with a message), or a non-`Error` value. -/
inductive JsThrown : Type
  | dbError (e : DatabaseError)
  | jsError (message : String)
  | nonError
deriving DecidableEq, Repr

/-- The driver connection: `conn.query(sql, values)` either resolves with
rows or rejects with a thrown value. -/
def Driver : Type := String → List Value → Except JsThrown (List Row)

/-- One call made on the connection: the SQL text and the parameter list
passed to `conn.query`. -/
structure DriverCall where
  sql : String
  params : List Value
deriving DecidableEq

/-- Model of `x ?? y` on an optional string, as in the code fields of the
diagnostic message. -/
def nullishCoalesce (x : Option String) (y : String) : String :=
  match x with
  | some s => s
  | none => y

/-- The diagnostic message `query` builds for a structured database error:
the line array of src/lib/index.ts:64–73 joined with a newline separator. -/
def dbErrorMessage (e : DatabaseError) (q : String) (values : List Value) : String :=
  joinSep "\n"
    [ "Database Error: " ++ e.message
    , ""
    , "Code: " ++ nullishCoalesce e.code "N/A"
    , "Detail: " ++ nullishCoalesce e.detail "N/A"
    , "Hint: " ++ nullishCoalesce e.hint "N/A"
    , "Position: " ++ nullishCoalesce e.position "N/A"
    , "Query: " ++ q
    , "Values: " ++ jsonStringify values
    ]

/-- Model of `query(conn, query, values)` (src/lib/index.ts:52–78): submit the SQL
and parameters on the connection once; on success return the rows of the driver;
on failure wrap the thrown value into a `RiftError` message. The second
component is the trace of calls performed on the connection. -/
def query (driver : Driver) (q : String) (values : List Value) :
    Except String (List Row) × List DriverCall :=
  ( match driver q values with
    | .ok res => .ok res
    | .error (.dbError e) => .error (dbErrorMessage e q values)
    | .error (.jsError msg) => .error ("Query failed: " ++ msg)
    | .error .nonError => .error ("Query failed: " ++ "unknown error")
  , [⟨q, values⟩] )

/-! ## Insert builder (src/lib/index.ts:94–126) -/

/-- Model of `Object.keys(data[0])`: the column list, from the keys of the
first row in
insertion order (`[]` is unreachable in `insert`, which short-circuits on
empty `data`). -/
def insertKeys (data : List Row) : List String :=
  (data.headD ([] : Row)).map Prod.fst

/-- The flattened parameter array: the `values.push(...rowValues)` of the loop
with `rowValues = keys.map((key) => row[key])`. -/
def insertValues (data : List Row) : List Value :=
  data.flatMap (fun row => (insertKeys data).map (rowGet row))

/-- The `placeholders` list of the loop body for one row before the join:
`rowValues.map((_, i) => `$${rowIndex * keys.length + i + 1}`)`. -/
def insertRowPlaceholderList (data : List Row) (rowIndex : Nat) : List String :=
  mapWithIndex
    (fun _ i => "$" ++ toString (rowIndex * (insertKeys data).length + i + 1))
    ((insertKeys data).map (rowGet (data.getD rowIndex ([] : Row))))

/-- The `valuePlaceholders` array: one `(`…`)` group per row. -/
def insertValuePlaceholders (data : List Row) : List String :=
  mapWithIndex
    (fun _ rowIndex => "(" ++ joinSep ", " (insertRowPlaceholderList data rowIndex) ++ ")")
    data

/-- The `updateClause`: the upsert clause when `conflict?.length` is truthy,
the empty string otherwise. -/
def insertUpdateClause (data : List Row) (conflict : List String) : String :=
  if conflict.length ≠ 0 then
    "ON CONFLICT (" ++ joinSep ", " conflict ++ ") DO UPDATE SET "
      ++ joinSep ", " ((insertKeys data).map (fun k => k ++ " = EXCLUDED." ++ k))
  else ""

/-- The `queryText` template literal (src/lib/index.ts:118–123), whitespace
included. -/
def insertQueryText (table : String) (data : List Row) (conflict : List String) : String :=
  "\n    INSERT INTO " ++ table ++ " (" ++ joinSep ", " (insertKeys data) ++ ")"
    ++ "\n    VALUES " ++ joinSep ", " (insertValuePlaceholders data)
    ++ "\n    " ++ insertUpdateClause data conflict
    ++ "\n    RETURNING *;\n  "

/-- Model of `insert(conn, table, data, conflict?)` (src/lib/index.ts:94–126): empty
`data` short-circuits to `[]` with no driver call; otherwise build the
statement and delegate to `query`. An absent `conflict` argument is the
empty list (both are falsy under `conflict?.length`). -/
def insert (driver : Driver) (table : String) (data : List Row) (conflict : List String) :
    Except String (List Row) × List DriverCall :=
  if data.length = 0 then (.ok [], [])
  else query driver (insertQueryText table data conflict) (insertValues data)

/-! ## Update builder (src/lib/index.ts:142–169) -/

/-- The `update` SQL text: ``` `update ${table} set ${…} where ${…} returning *` ```. -/
def updateSql (table : String) (whereObj : Row) (data : Row) : String :=
  "update " ++ table ++ " set "
    ++ joinSep ", "
        (mapWithIndex (fun k i => k ++ " = $" ++ toString (i + 1)) (data.map Prod.fst))
    ++ " where "
    ++ joinSep " and "
        (mapWithIndex (fun k i => k ++ " = $" ++ toString (i + 1 + (data.map Prod.fst).length))
          (whereObj.map Prod.fst))
    ++ " returning *"

/-- The `update` parameter list: `[...values, ...where_values]`. -/
def updateParams (whereObj : Row) (data : Row) : List Value :=
  data.map Prod.snd ++ whereObj.map Prod.snd

/-- Model of `update(conn, table, where, data)` (src/lib/index.ts:142–169): run the
built statement via `query`; when `res[0]` is absent throw the
`Update failed: no rows affected` error, else return `res[0]`. -/
def update (driver : Driver) (table : String) (whereObj : Row) (data : Row) :
    Except String Row × List DriverCall :=
  match query driver (updateSql table whereObj data) (updateParams whereObj data) with
  | (.error e, t) => (.error e, t)
  | (.ok res, t) =>
    match res.head? with
    | none => (.error ("Update failed: no rows affected"), t)
    | some r => (.ok r, t)

/-! ## Delete builder (src/lib/index.ts:182–192) -/

/-- The `remove` SQL text: ``` `delete from ${table} where ${…}` ```. -/
def removeSql (table : String) (whereObj : Row) : String :=
  "delete from " ++ table ++ " where "
    ++ joinSep " and "
        (mapWithIndex (fun k i => k ++ " = $" ++ toString (i + 1)) (whereObj.map Prod.fst))

/-- Model of `remove(conn, table, where)` (src/lib/index.ts:182–192): run the DELETE
via `query` and discard the rows; a failure propagates. -/
def remove (driver : Driver) (table : String) (whereObj : Row) :
    Except String Unit × List DriverCall :=
  match query driver (removeSql table whereObj) (whereObj.map Prod.snd) with
  | (.error e, t) => (.error e, t)
  | (.ok _, t) => (.ok (), t)

/-! ## Pool manager (src/lib/index.ts:14–37) -/

/-- The authentication block of `RiftConfig` (src/lib/types.ts:12–23);
a deferred password provider is modelled by the string it yields. -/
structure RiftConfigAuth where
  host : Option String
  port : Option Nat
  database : Option String
  user : Option String
  password : Option String
deriving DecidableEq, Repr

/-- Model of `RiftConfig` (src/lib/types.ts:25–34). -/
structure RiftConfig where
  name : String
  auth : Option RiftConfigAuth
  max : Option Nat
  initial_script : Option String
deriving DecidableEq, Repr

/-- The configuration a `pg.Pool` is constructed with
(src/lib/index.ts:20–27). -/
structure PgPoolConfig where
  host : Option String
  port : Option Nat
  database : Option String
  user : Option String
  password : Option String
  max : Option Nat
deriving DecidableEq, Repr

/-- The pool `init_pool` would construct from `conf`:
`new pg.Pool({ host: auth?.host, … , max: conf.max })`. -/
def poolOf (conf : RiftConfig) : PgPoolConfig :=
  { host := conf.auth.bind (·.host)
  , port := conf.auth.bind (·.port)
  , database := conf.auth.bind (·.database)
  , user := conf.auth.bind (·.user)
  , password := conf.auth.bind (·.password)
  , max := conf.max }

/-- Observable side effects of `init_pool`. -/
inductive PoolAction : Type
  | createPool (c : PgPoolConfig)
  | runScript (s : String)
deriving DecidableEq

/-- Model of `init_pool(conf)` (src/lib/index.ts:17–37) over the module-level `pool`
variable: `if (pool) return;` else construct the pool, and — when
`conf.initial_script` is truthy (present and non-empty) — run it as one
query on a borrowed connection. Returns the new value of `pool` and the
observable actions. -/
def init_pool (conf : RiftConfig) (pool : Option PgPoolConfig) :
    Option PgPoolConfig × List PoolAction :=
  match pool with
  | some p => (some p, [])
  | none =>
    let newPool := poolOf conf
    match conf.initial_script with
    | none => (some newPool, [.createPool newPool])
    | some s =>
      if s.length = 0 then (some newPool, [.createPool newPool])
      else (some newPool, [.createPool newPool, .runScript s])

/-! ## Helper lemmas -/

theorem length_mapIdxFrom (f : α → Nat → β) : ∀ (i : Nat) (l : List α),
    (mapIdxFrom f i l).length = l.length
  | _, [] => rfl
  | i, _ :: xs => by simp [mapIdxFrom, length_mapIdxFrom f (i + 1) xs]

theorem getElem?_mapIdxFrom (f : α → Nat → β) : ∀ (l : List α) (i j : Nat),
    (mapIdxFrom f i l)[j]? = (l[j]?).map (fun x => f x (i + j))
  | [], _, _ => by simp [mapIdxFrom]
  | x :: xs, i, 0 => by simp [mapIdxFrom]
  | x :: xs, i, j + 1 => by
      have h := getElem?_mapIdxFrom f xs (i + 1) j
      simp only [mapIdxFrom, List.getElem?_cons_succ, h]
      have : i + 1 + j = i + (j + 1) := by omega
      rw [this]

theorem length_mapWithIndex (f : α → Nat → β) (l : List α) :
    (mapWithIndex f l).length = l.length :=
  length_mapIdxFrom f 0 l

theorem getElem?_mapWithIndex (f : α → Nat → β) (l : List α) (j : Nat) :
    (mapWithIndex f l)[j]? = (l[j]?).map (fun x => f x j) := by
  simp [mapWithIndex, getElem?_mapIdxFrom]

theorem length_flatMap_uniform (f : α → List β) (k : Nat)
    (hf : ∀ a, (f a).length = k) : ∀ l : List α, (l.flatMap f).length = l.length * k
  | [] => by simp
  | x :: xs => by
      simp only [List.flatMap_cons, List.length_append, hf x,
        length_flatMap_uniform f k hf xs, List.length_cons]
      ring

theorem getElem?_flatMap_uniform (f : α → List β) (k : Nat)
    (hf : ∀ a, (f a).length = k) : ∀ (l : List α) (r c : Nat), c < k →
      (l.flatMap f)[r * k + c]? = (l[r]?).bind (fun x => (f x)[c]?)
  | [], _, _, _ => by simp
  | x :: xs, 0, c, hc => by
      simp only [List.flatMap_cons, Nat.zero_mul, Nat.zero_add,
        List.getElem?_append, hf x, hc, if_pos, List.getElem?_cons_zero,
        Option.some_bind]
  | x :: xs, r + 1, c, hc => by
      have h := getElem?_flatMap_uniform f k hf xs r c hc
      have hk : (r + 1) * k + c = k + (r * k + c) := by ring
      have hge : ¬ ((r + 1) * k + c < k) := by
        rw [hk]; exact Nat.not_lt.mpr (Nat.le_add_right _ _)
      have hsub : (r + 1) * k + c - k = r * k + c := by
        rw [hk]; exact Nat.add_sub_cancel_left k (r * k + c)
      rw [List.flatMap_cons, List.getElem?_append, hf x, if_neg hge, hsub, h,
        List.getElem?_cons_succ]

theorem joinSep_mem_substring (sep : String) : ∀ (l : List String) (x : String),
    x ∈ l → ∃ a b, joinSep sep l = a ++ x ++ b
  | [], x, hx => absurd hx (List.not_mem_nil x)
  | [y], x, hx => by
      rw [List.mem_singleton] at hx
      exact ⟨"", "", by simp [joinSep, hx, String.append_empty]⟩
  | y :: z :: zs, x, hx => by
      rcases List.mem_cons.mp hx with h | h
      · exact ⟨"", sep ++ joinSep sep (z :: zs), by
          simp [joinSep, h, String.append_assoc]⟩
      · obtain ⟨a, b, hab⟩ := joinSep_mem_substring sep (z :: zs) x h
        exact ⟨y ++ sep ++ a, b, by
          simp [joinSep, hab, String.append_assoc]⟩

theorem remove_trace (driver : Driver) (table : String) (w : Row) :
    (remove driver table w).2 = [⟨removeSql table w, w.map Prod.snd⟩] := by
  unfold remove query
  cases hd : driver (removeSql table w) (w.map Prod.snd) with
  | ok v => rfl
  | error e => cases e <;> rfl

/-- The first example row of the README, `{id: 1, value: "a"}`. -/
def exRow1 : Row := [("id", Value.int 1), ("value", Value.str "a")]

/-- The second example row of the README, `{id: 2, value: "b"}`. -/
def exRow2 : Row := [("id", Value.int 2), ("value", Value.str "b")]

/-! ## Claim theorems -/

/-- C5: insert with an empty row sequence returns an empty sequence
immediately, with no call performed on the connection (empty driver-call
trace), for every driver, table and conflict list. -/
theorem insert_empty_short_circuit (driver : Driver) (table : String)
    (conflict : List String) :
    insert driver table [] conflict = (.ok [], []) := rfl

/-- C7: the pool initializer is idempotent — when a pool already exists,
`init_pool` with any configuration returns the existing pool unchanged and
performs no action (no pool creation, no initialization script run). -/
theorem init_pool_idempotent (conf : RiftConfig) (p : PgPoolConfig) :
    init_pool conf (some p) = (some p, []) := rfl

/-- C9: the generic query executor performs exactly one driver call,
carrying the SQL text and the parameter list of the caller unchanged
(so it never retries and the parameter list it forwards is the very one
supplied), and on driver success returns the rows of the driver verbatim, in
driver order. -/
theorem query_single_call_passthrough (driver : Driver) (q : String)
    (values : List Value) :
    (query driver q values).2 = [⟨q, values⟩]
    ∧ (∀ rows : List Row, driver q values = .ok rows →
        (query driver q values).1 = .ok rows) := by
  refine ⟨rfl, fun rows h => ?_⟩
  simp [query, h]

/-- C9 witness: a concrete driver returning one fixed row. -/
theorem query_single_call_passthrough_witness :
    (query (fun _ _ => .ok [exRow1]) "select 1" []).2 = [⟨"select 1", []⟩]
    ∧ (query (fun _ _ => .ok [exRow1]) "select 1" []).1 = .ok [exRow1] := by
  have h := query_single_call_passthrough (fun _ _ => .ok [exRow1]) "select 1" []
  exact ⟨h.1, h.2 [exRow1] rfl⟩

/-- C3: when the executed statement returns an empty row set, `update`
raises the "no rows affected" `RiftError`; when it returns exactly one row,
`update` returns that row and raises no error. -/
theorem update_zero_and_one_row (driver : Driver) (table : String)
    (whereObj data : Row) :
    (driver (updateSql table whereObj data) (updateParams whereObj data) = .ok [] →
      (update driver table whereObj data).1 = .error "Update failed: no rows affected")
    ∧ (∀ r : Row,
        driver (updateSql table whereObj data) (updateParams whereObj data) = .ok [r] →
        (update driver table whereObj data).1 = .ok r) := by
  constructor
  · intro h
    simp [update, query, h]
  · intro r h
    simp [update, query, h]

/-- C3 witness: a driver matching zero rows raises the error; a driver
returning one row yields that row. -/
theorem update_zero_and_one_row_witness :
    (update (fun _ _ => .ok []) "list" [("id", Value.int 1)]
        [("value", Value.str "z")]).1 = .error "Update failed: no rows affected"
    ∧ (update (fun _ _ => .ok [exRow1]) "list" [("id", Value.int 1)]
        [("value", Value.str "z")]).1 = .ok exRow1 := by
  constructor
  · exact (update_zero_and_one_row (fun _ _ => .ok []) "list"
      [("id", Value.int 1)] [("value", Value.str "z")]).1 rfl
  · exact (update_zero_and_one_row (fun _ _ => .ok [exRow1]) "list"
      [("id", Value.int 1)] [("value", Value.str "z")]).2 exRow1 rfl

/-- C10: an empty `where` mapping is not rejected: `remove` still builds
`delete from <table> where ` with an empty predicate after the keyword and
submits it on the connection (the driver-call trace holds exactly that
statement with an empty parameter list), and `update` likewise emits
`… where  returning *` with an empty predicate between the keyword and the
`returning *` clause. -/
theorem empty_where_not_validated (driver : Driver) (table : String) (data : Row) :
    removeSql table [] = "delete from " ++ table ++ " where "
    ∧ (remove driver table []).2
        = [⟨"delete from " ++ table ++ " where ", []⟩]
    ∧ updateSql table [] data
        = "update " ++ table ++ " set "
            ++ joinSep ", "
                (mapWithIndex (fun k i => k ++ " = $" ++ toString (i + 1))
                  (data.map Prod.fst))
            ++ " where " ++ " returning *" := by
  refine ⟨?_, ?_, ?_⟩
  · simp [removeSql, mapWithIndex, mapIdxFrom, joinSep, String.append_empty]
  · rw [remove_trace]
    simp [removeSql, mapWithIndex, mapIdxFrom, joinSep, String.append_empty]
  · simp [updateSql, mapWithIndex, mapIdxFrom, joinSep, String.append_empty,
      String.append_assoc]

theorem empty_string_append (s : String) : "" ++ s = s := rfl

/-- C6: `update` builds `update <table> set <SET> where <WHERE> returning *`
where the SET clause assigns the `data` keys to `$1..$N`, the WHERE clause
is an AND-join binding the `where` keys to `$(N+1)..$(N+M)`, and the
parameter list is the `data` values followed by the `where` values. -/
theorem update_sql_structure (table : String) (whereObj data : Row) :
    (∃ S W : List String,
      updateSql table whereObj data
        = "update " ++ table ++ " set " ++ joinSep ", " S
            ++ " where " ++ joinSep " and " W ++ " returning *"
      ∧ S.length = data.length
      ∧ (∀ i : Nat, S[i]? = ((data.map Prod.fst)[i]?).map
          (fun k => k ++ " = $" ++ toString (i + 1)))
      ∧ W.length = whereObj.length
      ∧ (∀ j : Nat, W[j]? = ((whereObj.map Prod.fst)[j]?).map
          (fun k => k ++ " = $" ++ toString (j + 1 + data.length))))
    ∧ updateParams whereObj data = data.map Prod.snd ++ whereObj.map Prod.snd := by
  refine ⟨⟨mapWithIndex (fun k i => k ++ " = $" ++ toString (i + 1)) (data.map Prod.fst),
    mapWithIndex (fun k i => k ++ " = $" ++ toString (i + 1 + (data.map Prod.fst).length))
      (whereObj.map Prod.fst), rfl, ?_, ?_, ?_, ?_⟩, rfl⟩
  · rw [length_mapWithIndex, List.length_map]
  · intro i; rw [getElem?_mapWithIndex]
  · rw [length_mapWithIndex, List.length_map]
  · intro j; rw [getElem?_mapWithIndex]; simp [List.length_map]

/-- C8: `remove` builds a DELETE of the shape
`delete from <table> where <AND-joined predicate>` — structurally nothing
follows the predicate, in particular no RETURNING clause — with the
predicate binding the `where` keys to `$1..$M` and the `where` values as
parameters; it performs exactly that one driver call, returns no value
(`Unit`), and completes without error whenever the driver succeeds, even
with zero matched rows. -/
theorem remove_delete_structure (driver : Driver) (table : String) (whereObj : Row) :
    (∃ W : List String,
      removeSql table whereObj
        = "delete from " ++ table ++ " where " ++ joinSep " and " W
      ∧ W.length = whereObj.length
      ∧ (∀ i : Nat, W[i]? = ((whereObj.map Prod.fst)[i]?).map
          (fun k => k ++ " = $" ++ toString (i + 1))))
    ∧ (remove driver table whereObj).2
        = [⟨removeSql table whereObj, whereObj.map Prod.snd⟩]
    ∧ (∀ rows : List Row,
        driver (removeSql table whereObj) (whereObj.map Prod.snd) = .ok rows →
        (remove driver table whereObj).1 = .ok ()) := by
  refine ⟨⟨mapWithIndex (fun k i => k ++ " = $" ++ toString (i + 1))
      (whereObj.map Prod.fst), rfl, ?_, ?_⟩, remove_trace driver table whereObj, ?_⟩
  · rw [length_mapWithIndex, List.length_map]
  · intro i; rw [getElem?_mapWithIndex]
  · intro rows h
    simp [remove, query, h]

/-- C8 witness: deleting by `id = 1` from `users` on a driver that matches
zero rows builds `delete from users where id = $1` and completes without
error. -/
theorem remove_delete_structure_witness :
    removeSql "users" [("id", Value.int 1)] = "delete from users where id = $1"
    ∧ (remove (fun _ _ => .ok []) "users" [("id", Value.int 1)]).1 = .ok () := by
  have h := remove_delete_structure (fun _ _ => .ok []) "users" [("id", Value.int 1)]
  exact ⟨by decide, h.2.2 [] rfl⟩

/-- C4: a structured database error is wrapped into a `RiftError` message
concatenating, in order, the summary, the code (`N/A` when absent), the
detail, hint and position fields, the original SQL text and the
JSON-serialized parameter list; a non-database `Error` is wrapped with only
its own message, and a non-`Error` thrown value with the marker
`unknown error`, neither echoing SQL or parameters. -/
theorem query_error_messages (driver : Driver) (q : String) (values : List Value) :
    (∀ e : DatabaseError, driver q values = .error (.dbError e) →
      (query driver q values).1 = .error
        ("Database Error: " ++ e.message
          ++ "\n\nCode: " ++ nullishCoalesce e.code "N/A"
          ++ "\nDetail: " ++ nullishCoalesce e.detail "N/A"
          ++ "\nHint: " ++ nullishCoalesce e.hint "N/A"
          ++ "\nPosition: " ++ nullishCoalesce e.position "N/A"
          ++ "\nQuery: " ++ q
          ++ "\nValues: " ++ jsonStringify values))
    ∧ (∀ msg : String, driver q values = .error (.jsError msg) →
      (query driver q values).1 = .error ("Query failed: " ++ msg))
    ∧ (driver q values = .error .nonError →
      (query driver q values).1 = .error "Query failed: unknown error") := by
  refine ⟨fun e h => ?_, fun msg h => ?_, fun h => ?_⟩
  · simp only [query, h, dbErrorMessage, joinSep, empty_string_append,
      String.append_assoc]
    rw [← String.append_assoc "\n" "\n", ← String.append_assoc ("\n" ++ "\n") "Code: ",
      ← String.append_assoc "\n" "Detail: ", ← String.append_assoc "\n" "Hint: ",
      ← String.append_assoc "\n" "Position: ", ← String.append_assoc "\n" "Query: ",
      ← String.append_assoc "\n" "Values: "]
    rfl
  · simp [query, h]
  · simp [query, h]

/-- C4 witness: a uniqueness violation yields the full diagnostic message
with SQL and parameters; a plain error yields only its message; a
non-`Error` value yields the `unknown error` marker. -/
theorem query_error_messages_witness :
    (query (fun _ _ => .error (.dbError ⟨"dup", some "23505", none, none, none⟩))
        "insert into list" [Value.int 1, Value.str "a"]).1
      = .error "Database Error: dup\n\nCode: 23505\nDetail: N/A\nHint: N/A\nPosition: N/A\nQuery: insert into list\nValues: [1,\"a\"]"
    ∧ (query (fun _ _ => .error (.jsError "socket hang up")) "select 1" []).1
      = .error "Query failed: socket hang up"
    ∧ (query (fun _ _ => .error .nonError) "select 1" []).1
      = .error "Query failed: unknown error" := by
  refine ⟨?_, ?_, ?_⟩
  · have h := (query_error_messages
      (fun _ _ => .error (.dbError ⟨"dup", some "23505", none, none, none⟩))
      "insert into list" [Value.int 1, Value.str "a"]).1
      ⟨"dup", some "23505", none, none, none⟩ rfl
    rw [h]
    exact congrArg Except.error (by decide)
  · have h := (query_error_messages (fun _ _ => .error (.jsError "socket hang up"))
      "select 1" []).2.1 "socket hang up" rfl
    rw [h]
    exact congrArg Except.error (by decide)
  · exact (query_error_messages (fun _ _ => .error .nonError)
      "select 1" []).2.2 rfl

/-- C1: for a non-empty row sequence the flattened parameter list has
exactly `n * k` entries (`n` rows, `k` columns taken from the keys of the
first row), entry `r*k + c` is the value of row `r` at column `c` (row-major
order),
the placeholder generated for row `r`, column `c` is `$(r*k + c + 1)`; and
in particular inserting `{id:1, value:"a"}` and `{id:2, value:"b"}` into
`list` binds `[1, "a", 2, "b"]` to a statement with column list
`(id, value)` and placeholder groups `($1, $2), ($3, $4)`. -/
theorem insert_param_flattening (data : List Row) (r c : Nat)
    (hr : r < data.length) (hc : c < (insertKeys data).length) :
    (insertValues data).length = data.length * (insertKeys data).length
    ∧ (insertValues data)[r * (insertKeys data).length + c]?
        = some (rowGet (data.getD r ([] : Row)) ((insertKeys data).getD c ""))
    ∧ (insertRowPlaceholderList data r)[c]?
        = some ("$" ++ toString (r * (insertKeys data).length + c + 1))
    ∧ insertValues [exRow1, exRow2]
        = [Value.int 1, Value.str "a", Value.int 2, Value.str "b"]
    ∧ insertQueryText "list" [exRow1, exRow2] []
        = "\n    INSERT INTO list (id, value)\n    VALUES ($1, $2), ($3, $4)\n    \n    RETURNING *;\n  " := by
  have hf : ∀ row : Row, ((insertKeys data).map (rowGet row)).length
      = (insertKeys data).length := fun row => List.length_map _ _
  refine ⟨?_, ?_, ?_, by decide, by decide⟩
  · exact length_flatMap_uniform _ _ hf data
  · rw [insertValues, getElem?_flatMap_uniform _ _ hf data r c hc,
      (List.getElem?_eq_some_getElem_iff data r hr).mpr trivial,
      Option.some_bind, List.getElem?_map,
      (List.getElem?_eq_some_getElem_iff _ c hc).mpr trivial]
    simp [(List.getElem?_eq_some_getElem_iff data r hr).mpr trivial,
      (List.getElem?_eq_some_getElem_iff (insertKeys data) c hc).mpr trivial]
  · rw [insertRowPlaceholderList, getElem?_mapWithIndex, List.getElem?_map,
      (List.getElem?_eq_some_getElem_iff _ c hc).mpr trivial]
    simp

/-- C1 witness: the two README rows, at row index 1, column index 1. -/
theorem insert_param_flattening_witness :
    (insertValues [exRow1, exRow2]).length
        = ([exRow1, exRow2] : List Row).length * (insertKeys [exRow1, exRow2]).length
    ∧ (insertValues [exRow1, exRow2])[1 * (insertKeys [exRow1, exRow2]).length + 1]?
        = some (rowGet (([exRow1, exRow2] : List Row).getD 1 ([] : Row))
            ((insertKeys [exRow1, exRow2]).getD 1 ""))
    ∧ (insertRowPlaceholderList [exRow1, exRow2] 1)[1]?
        = some ("$" ++ toString (1 * (insertKeys [exRow1, exRow2]).length + 1 + 1))
    ∧ insertValues [exRow1, exRow2]
        = [Value.int 1, Value.str "a", Value.int 2, Value.str "b"]
    ∧ insertQueryText "list" [exRow1, exRow2] []
        = "\n    INSERT INTO list (id, value)\n    VALUES ($1, $2), ($3, $4)\n    \n    RETURNING *;\n  " :=
  insert_param_flattening [exRow1, exRow2] 1 1 (by decide) (by decide)

/-- C2: with a non-empty conflict-column list the generated statement
contains the clause `ON CONFLICT (<cols>) DO UPDATE SET` and, for every
column of the first row, the assignment `col = EXCLUDED.col`; with an empty
(or absent) conflict list the conflict clause is the empty string; and the
statement always ends with a `RETURNING *` clause. -/
theorem insert_conflict_upsert_returning (table : String) (data : List Row)
    (conflict : List String) (hc : conflict ≠ []) :
    (∀ col ∈ insertKeys data, ∃ a b : String,
        insertQueryText table data conflict
          = a ++ (col ++ " = EXCLUDED." ++ col) ++ b)
    ∧ (∃ a b : String, insertQueryText table data conflict
        = a ++ ("ON CONFLICT (" ++ joinSep ", " conflict ++ ") DO UPDATE SET ") ++ b)
    ∧ insertUpdateClause data [] = ""
    ∧ (∃ p : String, insertQueryText table data conflict = p ++ "RETURNING *;\n  ") := by
  have hlen : conflict.length ≠ 0 := by simpa using hc
  have hclause : insertUpdateClause data conflict
      = "ON CONFLICT (" ++ joinSep ", " conflict ++ ") DO UPDATE SET "
          ++ joinSep ", " ((insertKeys data).map (fun k => k ++ " = EXCLUDED." ++ k)) := by
    rw [insertUpdateClause, if_pos hlen]
  refine ⟨?_, ?_, rfl, ?_⟩
  · intro col hcol
    obtain ⟨a, b, hab⟩ := joinSep_mem_substring ", "
      ((insertKeys data).map (fun k => k ++ " = EXCLUDED." ++ k))
      (col ++ " = EXCLUDED." ++ col)
      (List.mem_map_of_mem (fun k => k ++ " = EXCLUDED." ++ k) hcol)
    refine ⟨"\n    INSERT INTO " ++ table ++ " (" ++ joinSep ", " (insertKeys data) ++ ")"
        ++ "\n    VALUES " ++ joinSep ", " (insertValuePlaceholders data)
        ++ "\n    " ++ ("ON CONFLICT (" ++ joinSep ", " conflict ++ ") DO UPDATE SET ")
        ++ a,
      b ++ "\n    RETURNING *;\n  ", ?_⟩
    rw [insertQueryText, hclause, hab]
    simp [String.append_assoc]
  · refine ⟨"\n    INSERT INTO " ++ table ++ " (" ++ joinSep ", " (insertKeys data) ++ ")"
        ++ "\n    VALUES " ++ joinSep ", " (insertValuePlaceholders data)
        ++ "\n    ",
      joinSep ", " ((insertKeys data).map (fun k => k ++ " = EXCLUDED." ++ k))
        ++ "\n    RETURNING *;\n  ", ?_⟩
    rw [insertQueryText, hclause]
    simp [String.append_assoc]
  · refine ⟨"\n    INSERT INTO " ++ table ++ " (" ++ joinSep ", " (insertKeys data) ++ ")"
        ++ "\n    VALUES " ++ joinSep ", " (insertValuePlaceholders data)
        ++ "\n    " ++ insertUpdateClause data conflict ++ "\n    ", ?_⟩
    rw [insertQueryText]
    rw [show ("\n    RETURNING *;\n  " : String) = "\n    " ++ "RETURNING *;\n  " from by decide]
    simp [String.append_assoc]

/-- C2 witness: inserting the two README rows with conflict column `id`
contains the `value = EXCLUDED.value` assignment, and the empty conflict
list emits no conflict clause. -/
theorem insert_conflict_upsert_returning_witness :
    (∃ a b : String, insertQueryText "list" [exRow1, exRow2] ["id"]
        = a ++ ("value" ++ " = EXCLUDED." ++ "value") ++ b)
    ∧ insertUpdateClause [exRow1, exRow2] [] = ""
    ∧ (∃ p : String, insertQueryText "list" [exRow1, exRow2] ["id"]
        = p ++ "RETURNING *;\n  ") := by
  have h := insert_conflict_upsert_returning "list" [exRow1, exRow2] ["id"]
    (by decide)
  exact ⟨h.1 "value" (by decide), h.2.2.1, h.2.2.2⟩

end Rift
